import Mathlib

/-!
Verification of the collision/deadlock resolution core of a multi-agent
collision monitor (Rust crate `monitor`, file `src/collision_monitor.rs`).

The embedding is a shallow one: `f64` coordinates are modelled as `ℚ`
(all concrete scenarios use exactly representable values and the code
performs only field operations and comparisons on them), the Rust
`Vec<Robot>` batch becomes a `List Robot` with index access via `getD`,
and the `f64::cos` / `f64::sin` calls are abstracted as an explicit pair
of functions (`Trig`) so that every definition stays computable; theorems
about rotated geometry quantify over that pair, adding the facts
`cos 0 = 1` / `sin 0 = 0` as hypotheses where a concrete scenario fixes
`theta = 0`.
-/

namespace AvoidDeadlocks

/-- Abstraction of the trigonometric primitives used by
`rotate_bounding_box` (`f64::cos`, `f64::sin`). -/
structure Trig where
  cos : ℚ → ℚ
  sin : ℚ → ℚ

/-- `Path` record from `collision_monitor.rs`: one waypoint `(x, y, theta)`. -/
structure Pathpoint where
  x : ℚ
  y : ℚ
  theta : ℚ
deriving DecidableEq, Repr

/-- `Robot` record from `collision_monitor.rs`. -/
structure Robot where
  x : ℚ
  y : ℚ
  theta : ℚ
  loaded : Bool
  timestamp : Int
  path : List Pathpoint
  device_id : String
  state : String
  battery_level : ℚ
deriving DecidableEq, Repr

instance : Inhabited Robot :=
  ⟨{ x := 0, y := 0, theta := 0, loaded := false, timestamp := 0, path := [],
     device_id := "", state := "", battery_level := 0 }⟩

instance : Inhabited Pathpoint :=
  ⟨{ x := 0, y := 0, theta := 0 }⟩

/-- `CollisionMonitorConfig` from `config.rs`; only the geometric and
batch-size fields are consulted by the core algorithm, the rest is carried. -/
structure CollisionMonitorConfig where
  width : ℚ
  height : ℚ
  queue_hub_pw : String
  queue_hub_user : String
  hostname : String
  hub_listening_port : Nat
  num_agents : Nat
  logs_dir : String
  listening_port : Nat
  db_path : String
deriving Repr

/-- `MotionState` enum from `collision_monitor.rs`. -/
inductive MotionState where
  | Pause
  | Resume
deriving DecidableEq, Repr

/-- `MotionState::to_string`. -/
def MotionState.toString : MotionState → String
  | .Pause => "Pause"
  | .Resume => "Resume"

/-- `rotate_bounding_box`: rotates point `(x, y)` about `(origin_x, origin_y)`
by angle `theta`. -/
def rotate_bounding_box (tc : Trig) (x y theta origin_x origin_y : ℚ) : ℚ × ℚ :=
  let translated_x := x - origin_x
  let translated_y := y - origin_y
  let rotated_x := translated_x * tc.cos theta - translated_y * tc.sin theta
  let rotated_y := translated_x * tc.sin theta + translated_y * tc.cos theta
  let final_x := rotated_x + origin_x
  let final_y := rotated_y + origin_y
  (final_x, final_y)

/-- `collision_check_helper`: overlap test on the two rotated min/max corners. -/
def collision_check_helper (tc : Trig) (cfg : CollisionMonitorConfig)
    (robot other_robot : Robot) : Bool :=
  let robot_x_min := robot.x - cfg.width / 2
  let robot_x_max := robot.x + cfg.width / 2
  let robot_y_min := robot.y - cfg.height / 2
  let robot_y_max := robot.y + cfg.height / 2
  let other_robot_x_min := other_robot.x - cfg.width / 2
  let other_robot_x_max := other_robot.x + cfg.width / 2
  let other_robot_y_min := other_robot.y - cfg.height / 2
  let other_robot_y_max := other_robot.y + cfg.height / 2
  let rmin := rotate_bounding_box tc robot_x_min robot_y_min robot.theta robot.x robot.y
  let rmax := rotate_bounding_box tc robot_x_max robot_y_max robot.theta robot.x robot.y
  let omin := rotate_bounding_box tc other_robot_x_min other_robot_y_min
      other_robot.theta other_robot.x other_robot.y
  let omax := rotate_bounding_box tc other_robot_x_max other_robot_y_max
      other_robot.theta other_robot.x other_robot.y
  if rmax.1 < omin.1 ∨ rmin.1 > omax.1 then false
  else if rmax.2 < omin.2 ∨ rmin.2 > omax.2 then false
  else true

/-- `will_collision_occur`: pairwise conflict test, short-circuiting on equal
device ids. -/
def will_collision_occur (tc : Trig) (cfg : CollisionMonitorConfig)
    (robot_a robot_b : Robot) : Bool :=
  if robot_a.device_id = robot_b.device_id then false
  else if collision_check_helper tc cfg robot_a robot_b then true
  else false

/-- `detect_collisions`: all conflicting index pairs `(idx, jdx)`, `idx < jdx`,
in ascending iteration order (outer loop over `idx`, inner over `jdx > idx`). -/
def detect_collisions (tc : Trig) (cfg : CollisionMonitorConfig)
    (robots : List Robot) : List (Nat × Nat) :=
  (List.range robots.length).flatMap fun idx =>
    (List.range' (idx + 1) (robots.length - (idx + 1))).filterMap fun jdx =>
      if will_collision_occur tc cfg (robots.getD idx default) (robots.getD jdx default)
      then some (idx, jdx) else none

/-- `resolve_collision`: the default policy, always `(Pause, Pause)`. -/
def resolve_collision : MotionState × MotionState :=
  (MotionState.Pause, MotionState.Pause)

/-- Embedding of Rust `Iterator::position`: index of the first element
satisfying the predicate. -/
def position (p : α → Prop) [DecidablePred p] : List α → Option Nat
  | [] => none
  | a :: l => if p a then some 0 else (position p l).map (· + 1)

/-- `update_motion_coordinates`: if the robot is in `Resume` state and its
current `(x, y)` equals some waypoint of its path, move it to the waypoint
after the first such match (when one exists). -/
def update_motion_coordinates (robot : Robot) : Robot :=
  if robot.state = MotionState.Resume.toString then
    match position (fun point => point.x = robot.x ∧ point.y = robot.y) robot.path with
    | some current_index =>
      match robot.path[current_index + 1]? with
      | some next_point => { robot with x := next_point.x, y := next_point.y }
      | none => robot
    | none => robot
  else robot

/-- One traversal of `resolve_deadlock`'s `for` loop: `handled` is the
seen-set of exact conflict tuples; each unhandled pair is resolved by giving
right of way opposite an already-paused side, falling back to the default
policy. The two reads `robot_a`/`robot_b` happen before any write, as in the
source (non-lexical borrows end at the condition checks). -/
def resolve_deadlock_go : List (Nat × Nat) → List Robot → List (Nat × Nat) → List Robot
  | _, robots, [] => robots
  | handled, robots, c :: rest =>
    if c ∈ handled then resolve_deadlock_go handled robots rest
    else
      let robot_a := robots.getD c.1 default
      let robot_b := robots.getD c.2 default
      let step : List Robot × MotionState × MotionState :=
        if robot_a.state = MotionState.Pause.toString then
          (robots.set c.2 (update_motion_coordinates robot_b),
            MotionState.Pause, MotionState.Resume)
        else if robot_b.state = MotionState.Pause.toString then
          (robots.set c.1 (update_motion_coordinates robot_a),
            MotionState.Resume, MotionState.Pause)
        else
          (robots, resolve_collision)
      let robots1 := step.1
      let robots2 := robots1.set c.1 { robots1.getD c.1 default with state := step.2.1.toString }
      let robots3 := robots2.set c.2 { robots2.getD c.2 default with state := step.2.2.toString }
      resolve_deadlock_go (c :: handled) robots3 rest

/-- `resolve_deadlock` from `collision_monitor.rs`. -/
def resolve_deadlock (robots : List Robot) (conflicts : List (Nat × Nat)) : List Robot :=
  resolve_deadlock_go [] robots conflicts

/-- The inner `for &idx in &conflict_order` loop of `update_robot_state`.
Returns the mutated batch and the deadlock flag; a `(Pause, Pause)` policy
result sets the flag and breaks out of the loop. Note the source indexes
`conflicts[idx]` by a robot index taken from the order list (totalised here
with `getD`); this loop is unreachable in `update_robot_state`, see
`resolution_loop_entry`. -/
def conflict_pass (conflicts : List (Nat × Nat)) :
    List Robot → Bool → List Nat → List Robot × Bool
  | robots, deadlock, [] => (robots, deadlock)
  | robots, deadlock, idx :: rest =>
    let c := conflicts.getD idx (0, 0)
    if (robots.getD c.1 default).state = MotionState.Pause.toString
        ∨ (robots.getD c.2 default).state = MotionState.Pause.toString then
      conflict_pass conflicts robots deadlock rest
    else
      let s := resolve_collision
      if s.1 = MotionState.Pause ∧ s.2 = MotionState.Pause then
        (robots, true)
      else
        let robots := if s.1 = MotionState.Resume then
            robots.set c.1 (update_motion_coordinates (robots.getD c.1 default)) else robots
        let robots := if s.2 = MotionState.Resume then
            robots.set c.2 (update_motion_coordinates (robots.getD c.2 default)) else robots
        let robots := robots.set c.1 { robots.getD c.1 default with state := s.1.toString }
        let robots := robots.set c.2 { robots.getD c.2 default with state := s.2.toString }
        conflict_pass conflicts robots deadlock rest

/-- The `while !conflicts.is_empty() && !deadlock` loop of
`update_robot_state`, fuel-indexed. The fuel is irrelevant on every input
actually reached: the guard is false whenever `deadlock` equals
`!conflicts.isEmpty` (see `resolution_loop_entry`), which is how the loop is
entered. -/
def resolution_loop (tc : Trig) (cfg : CollisionMonitorConfig) :
    Nat → List Robot → List (Nat × Nat) → Bool → List Robot × Bool
  | 0, robots, _, deadlock => (robots, deadlock)
  | fuel + 1, robots, conflicts, deadlock =>
    if conflicts.isEmpty ∨ deadlock then (robots, deadlock)
    else
      let conflict_order := conflicts.map fun c => c.1
      let pass := conflict_pass conflicts robots deadlock conflict_order
      let conflicts1 := detect_collisions tc cfg pass.1
      let robots1 := if conflicts1.isEmpty then pass.1 else resolve_deadlock pass.1 conflicts1
      resolution_loop tc cfg fuel robots1 conflicts1 pass.2

/-- Body of `update_robot_state` up to (excluding) the final
`if deadlock { pause all }` sweep: returns the batch and the deadlock flag
as they stand when the `while` loop exits. -/
def update_robot_state_core (tc : Trig) (cfg : CollisionMonitorConfig)
    (robots : List Robot) : List Robot × Bool :=
  let conflicts := detect_collisions tc cfg robots
  let deadlock := !conflicts.isEmpty
  let robots1 := if conflicts.isEmpty then robots.map update_motion_coordinates else robots
  resolution_loop tc cfg (robots.length * robots.length + 1) robots1 conflicts deadlock

/-- The final full-fleet pause sweep (`for robot in robots { state = Pause }`). -/
def pause_all (robots : List Robot) : List Robot :=
  robots.map fun robot => { robot with state := MotionState.Pause.toString }

/-- `update_robot_state`: one resolution cycle over the batch. -/
def update_robot_state (tc : Trig) (cfg : CollisionMonitorConfig)
    (robots : List Robot) : List Robot :=
  let core := update_robot_state_core tc cfg robots
  if core.2 then pause_all core.1 else core.1

/-- `trigger_collision_monitor`: the facade; rejects a batch whose size is
not exactly `num_agents`, otherwise runs one resolution cycle. -/
def trigger_collision_monitor (tc : Trig) (cfg : CollisionMonitorConfig)
    (robots : List Robot) : Except String (List Robot) :=
  if robots.length ≠ cfg.num_agents then
    Except.error "Not yet received all agent records"
  else
    Except.ok (update_robot_state tc cfg robots)

/-- A computable trig pair agreeing with `f64::cos` / `f64::sin` at
`theta = 0`, for concrete scenarios whose poses all have zero heading. -/
def trigZ : Trig :=
  { cos := fun _ => 1, sin := fun _ => 0 }

/-- The robot at path index `i` sits exactly on waypoint `i` of its path
(the exact-equality "on-path" condition of the waypoint-advance rule). -/
def on_wp (r : Robot) (i : Nat) : Prop :=
  (r.path.getD i default).x = r.x ∧ (r.path.getD i default).y = r.y

/-- Concrete-scenario constructor: a `Resume` robot with zero heading. -/
def mk_robot (x y : ℚ) (pid : String) (pth : List (ℚ × ℚ)) : Robot :=
  { x := x, y := y, theta := 0, loaded := false, timestamp := 0,
    path := pth.map fun p => { x := p.1, y := p.2, theta := 0 },
    device_id := pid, state := MotionState.Resume.toString, battery_level := 100 }

/-- The configuration of the repository's tests: `1 × 1` boxes, 3 agents. -/
def cfg3 : CollisionMonitorConfig :=
  { width := 1, height := 1, queue_hub_pw := "", queue_hub_user := "", hostname := "",
    hub_listening_port := 5672, num_agents := 3, logs_dir := "", listening_port := 9877,
    db_path := "" }

/-- Same configuration with a required batch size of 4. -/
def cfg4 : CollisionMonitorConfig :=
  { cfg3 with num_agents := 4 }

/-- The three diagonal robots of the `detect_collisions` scenario:
`(0,0)`, `(1,1)`, `(2,2)`, all with `theta = 0`. -/
def diag1 : Robot := mk_robot 0 0 "robot1" [(0, 0), (1, 1)]

def diag2 : Robot := mk_robot 1 1 "robot2" [(1, 1), (2, 2)]

def diag3 : Robot := mk_robot 2 2 "robot3" [(2, 2), (3, 3)]

/-- Two robots close enough to conflict under a `1 × 1` box. -/
def near1 : Robot := mk_robot 0 0 "near1" [(0, 0), (1, 1)]

def near2 : Robot := mk_robot (1/2) 0 "near2" [(1/2, 0), (2, 0)]

/-- Two isolated robots, far from everything. -/
def iso1 : Robot := mk_robot 50 50 "iso1" [(50, 50), (60, 60)]

def iso2 : Robot := mk_robot 80 80 "iso2" [(80, 80), (81, 81)]

/-- Four-agent batch with exactly one conflicting pair (indices 0 and 1)
and two isolated agents (indices 2 and 3), each on its own path with a next
waypoint available. -/
def batch4 : List Robot := [near1, near2, iso1, iso2]

/-- Two records sharing one `device_id`, geometrically overlapping. -/
def dup1 : Robot := mk_robot 0 0 "dup" [(0, 0)]

def dup2 : Robot := mk_robot 0 0 "dup" [(0, 0)]

/-- Far-apart conflict-free pair, both on-path with next waypoints. -/
def far1 : Robot := mk_robot 0 0 "far1" [(0, 0), (1, 1), (2, 2)]

def far2 : Robot := mk_robot 10 10 "far2" [(10, 10), (20, 20), (30, 30)]

/-- A single `Resume` robot sitting on waypoint 0 of its two-point path. -/
def w5 : Robot := mk_robot 0 0 "w5" [(0, 0), (5, 7)]

/-- The `while` loop of `update_robot_state` is entered with
`deadlock = !conflicts.isEmpty`, which falsifies its guard
`!conflicts.is_empty() && !deadlock` at once: with conflicts the flag is
already set, without conflicts the list is empty. So the loop returns its
input unchanged, whatever the fuel. -/
theorem resolution_loop_entry (tc : Trig) (cfg : CollisionMonitorConfig)
    (fuel : Nat) (robots : List Robot) (conflicts : List (Nat × Nat)) :
    resolution_loop tc cfg (fuel + 1) robots conflicts (!conflicts.isEmpty) =
      (robots, !conflicts.isEmpty) := by
  cases conflicts with
  | nil => simp [resolution_loop]
  | cons c cs => simp [resolution_loop]

/-- The loop body of `update_robot_state` being unreachable, the core
returns the advanced batch with a clear flag when no conflicts exist, and
the untouched batch with the flag set otherwise. -/
theorem update_robot_state_core_eq (tc : Trig) (cfg : CollisionMonitorConfig)
    (robots : List Robot) :
    update_robot_state_core tc cfg robots =
      ((if (detect_collisions tc cfg robots).isEmpty
          then robots.map update_motion_coordinates else robots),
        !(detect_collisions tc cfg robots).isEmpty) := by
  unfold update_robot_state_core
  exact resolution_loop_entry tc cfg (robots.length * robots.length) _ _

/-- Full characterization of one resolution cycle: a conflict-free batch is
advanced agent-by-agent; a batch with any conflict is returned with every
state forced to `Pause` and no position change. -/
theorem update_robot_state_eq (tc : Trig) (cfg : CollisionMonitorConfig)
    (robots : List Robot) :
    update_robot_state tc cfg robots =
      if (detect_collisions tc cfg robots).isEmpty
        then robots.map update_motion_coordinates
        else pause_all robots := by
  unfold update_robot_state
  rw [update_robot_state_core_eq]
  cases h : (detect_collisions tc cfg robots).isEmpty <;> simp [h]

/-- `detect_collisions` over a two-element batch. -/
theorem detect_collisions_two (tc : Trig) (cfg : CollisionMonitorConfig) (a b : Robot) :
    detect_collisions tc cfg [a, b] =
      if will_collision_occur tc cfg a b then [((0 : Nat), (1 : Nat))] else [] := by
  by_cases h1 : will_collision_occur tc cfg a b <;>
    simp [detect_collisions, List.range_succ, List.range', h1]

/-- `detect_collisions` over a three-element batch, as the concatenation of
the three pairwise tests in iteration order. -/
theorem detect_collisions_three (tc : Trig) (cfg : CollisionMonitorConfig) (a b c : Robot) :
    detect_collisions tc cfg [a, b, c] =
      ((if will_collision_occur tc cfg a b then [((0 : Nat), (1 : Nat))] else []) ++
        (if will_collision_occur tc cfg a c then [(0, 2)] else [])) ++
      (if will_collision_occur tc cfg b c then [(1, 2)] else []) := by
  by_cases h1 : will_collision_occur tc cfg a b <;>
    by_cases h2 : will_collision_occur tc cfg a c <;>
    by_cases h3 : will_collision_occur tc cfg b c <;>
    simp [detect_collisions, List.range_succ, List.range', h1, h2, h3]

set_option maxHeartbeats 3200000 in
/-- `detect_collisions` over a four-element batch, as the concatenation of
the six pairwise tests in iteration order. -/
theorem detect_collisions_four (tc : Trig) (cfg : CollisionMonitorConfig) (a b c d : Robot) :
    detect_collisions tc cfg [a, b, c, d] =
      ((((if will_collision_occur tc cfg a b then [((0 : Nat), (1 : Nat))] else []) ++
          (if will_collision_occur tc cfg a c then [(0, 2)] else []) ++
          (if will_collision_occur tc cfg a d then [(0, 3)] else [])) ++
        ((if will_collision_occur tc cfg b c then [(1, 2)] else []) ++
          (if will_collision_occur tc cfg b d then [(1, 3)] else []))) ++
      (if will_collision_occur tc cfg c d then [(2, 3)] else [])) := by
  by_cases h1 : will_collision_occur tc cfg a b <;>
    by_cases h2 : will_collision_occur tc cfg a c <;>
    by_cases h3 : will_collision_occur tc cfg a d <;>
    by_cases h4 : will_collision_occur tc cfg b c <;>
    by_cases h5 : will_collision_occur tc cfg b d <;>
    by_cases h6 : will_collision_occur tc cfg c d <;>
    simp [detect_collisions, List.range_succ, List.range', h1, h2, h3, h4, h5, h6]

/-- `position` returns `some i` exactly when `i` is in range, the element at
`i` satisfies the predicate, and no earlier element does. -/
theorem position_eq_some_iff {α : Type} (p : α → Prop) [DecidablePred p] (d : α)
    (l : List α) (i : Nat) :
    position p l = some i ↔
      i < l.length ∧ p (l.getD i d) ∧ ∀ k, k < i → ¬ p (l.getD k d) := by
  induction l generalizing i with
  | nil => simp [position]
  | cons a l ih =>
    by_cases hpa : p a
    · rw [position, if_pos hpa]
      cases i with
      | zero => simpa using hpa
      | succ n =>
        simp only [Option.some.injEq]
        constructor
        · intro h; omega
        · rintro ⟨-, -, hall⟩
          exact absurd hpa (by simpa using hall 0 (Nat.succ_pos n))
    · rw [position, if_neg hpa]
      cases i with
      | zero =>
        simp only [Option.map_eq_some']
        constructor
        · rintro ⟨j, -, hj0⟩; omega
        · rintro ⟨-, hp0, -⟩
          exact absurd (by simpa using hp0) hpa
      | succ n =>
        simp only [Option.map_eq_some']
        constructor
        · rintro ⟨j, hj, hjn⟩
          have hjeq : j = n := by omega
          rw [hjeq] at hj
          obtain ⟨h1, h2, h3⟩ := (ih n).mp hj
          refine ⟨by simpa [Nat.succ_lt_succ_iff] using h1, by simpa using h2, ?_⟩
          intro k hk
          cases k with
          | zero => simpa using hpa
          | succ m => simpa using h3 m (by omega)
        · rintro ⟨h1, h2, h3⟩
          refine ⟨n, (ih n).mpr ⟨?_, ?_, ?_⟩, rfl⟩
          · simpa [Nat.succ_lt_succ_iff] using h1
          · simpa using h2
          · intro k hk
            simpa using h3 (k + 1) (by omega)

/-- `position` returns `none` exactly when no element in range satisfies the
predicate. -/
theorem position_eq_none_iff {α : Type} (p : α → Prop) [DecidablePred p] (d : α)
    (l : List α) :
    position p l = none ↔ ∀ k, k < l.length → ¬ p (l.getD k d) := by
  induction l with
  | nil => simp [position]
  | cons a l ih =>
    by_cases hpa : p a
    · rw [position, if_pos hpa]
      constructor
      · intro h
        exact absurd h (by simp)
      · intro hall
        exact absurd hpa (by simpa using hall 0 (Nat.succ_pos _))
    · rw [position, if_neg hpa]
      simp only [Option.map_eq_none', ih]
      constructor
      · intro h k hk
        cases k with
        | zero => simpa using hpa
        | succ m => simpa using h m (by simp at hk; omega)
      · intro h k hk
        simpa using h (k + 1) (by simp; omega)

/-- `update_motion_coordinates` never touches any field other than `x`
and `y`. -/
theorem update_motion_coordinates_frame (r : Robot) :
    (update_motion_coordinates r).theta = r.theta ∧
    (update_motion_coordinates r).loaded = r.loaded ∧
    (update_motion_coordinates r).timestamp = r.timestamp ∧
    (update_motion_coordinates r).path = r.path ∧
    (update_motion_coordinates r).device_id = r.device_id ∧
    (update_motion_coordinates r).state = r.state ∧
    (update_motion_coordinates r).battery_level = r.battery_level := by
  unfold update_motion_coordinates
  split
  · split
    · split <;> simp
    · simp
  · simp

/-- `pause_all` only rewrites `state`. -/
theorem pause_all_getD (robots : List Robot) (i : Nat) (h : i < robots.length) :
    (pause_all robots).getD i default =
      { robots.getD i default with state := MotionState.Pause.toString } := by
  have h2 : i < (pause_all robots).length := by simpa [pause_all]
  rw [List.getD_eq_getElem _ _ h2, List.getD_eq_getElem _ _ h]
  simp [pause_all]

/-- `getD` through `map` at an in-range index. -/
theorem getD_map_of_lt (f : Robot → Robot) (robots : List Robot) (i : Nat)
    (h : i < robots.length) :
    (robots.map f).getD i default = f (robots.getD i default) := by
  have h2 : i < (robots.map f).length := by simpa
  rw [List.getD_eq_getElem _ _ h2, List.getD_eq_getElem _ _ h]
  simp

/-- A positive collision test implies distinct device ids. -/
theorem will_collision_occur_ne (tc : Trig) (cfg : CollisionMonitorConfig)
    (a b : Robot) (h : will_collision_occur tc cfg a b = true) :
    a.device_id ≠ b.device_id := by
  intro he
  rw [will_collision_occur, if_pos he] at h
  exact Bool.false_ne_true h

/-- The corner-extent overlap test is symmetric: each side's rotated
extents are computed from that side alone, and the interval comparisons
swap into each other. -/
theorem collision_check_helper_symm (tc : Trig) (cfg : CollisionMonitorConfig)
    (a b : Robot) :
    collision_check_helper tc cfg a b = collision_check_helper tc cfg b a := by
  simp only [collision_check_helper, gt_iff_lt]
  split_ifs <;> first | rfl | tauto

/-- C6: the pairwise overlap test is symmetric: for all agent poses and box
dimensions, `will_collision_occur a b = will_collision_occur b a`. -/
theorem will_collision_occur_symm (tc : Trig) (cfg : CollisionMonitorConfig)
    (a b : Robot) :
    will_collision_occur tc cfg a b = will_collision_occur tc cfg b a := by
  unfold will_collision_occur
  by_cases hd : a.device_id = b.device_id
  · rw [if_pos hd, if_pos hd.symm]
  · have hd2 : ¬ b.device_id = a.device_id := fun h2 => hd h2.symm
    rw [if_neg hd, if_neg hd2, collision_check_helper_symm]

/-- C7: two records with equal `device_id` never test as colliding, and
consequently no pair reported by `detect_collisions` relates two records
sharing a `device_id`. -/
theorem no_self_conflict (tc : Trig) (cfg : CollisionMonitorConfig) :
    (∀ a b : Robot, a.device_id = b.device_id →
      will_collision_occur tc cfg a b = false) ∧
    (∀ (robots : List Robot) (i j : Nat), (i, j) ∈ detect_collisions tc cfg robots →
      (robots.getD i default).device_id ≠ (robots.getD j default).device_id) := by
  constructor
  · intro a b h
    rw [will_collision_occur, if_pos h]
  · intro robots i j hmem
    simp only [detect_collisions, List.mem_flatMap, List.mem_filterMap] at hmem
    obtain ⟨idx, -, jdx, -, heq⟩ := hmem
    by_cases hw : will_collision_occur tc cfg (robots.getD idx default)
        (robots.getD jdx default) = true
    · rw [if_pos hw] at heq
      simp only [Option.some.injEq, Prod.mk.injEq] at heq
      obtain ⟨h1, h2⟩ := heq
      subst h1
      subst h2
      exact will_collision_occur_ne tc cfg _ _ hw
    · rw [if_neg hw] at heq
      exact absurd heq (by simp)

/-- C4: `trigger_collision_monitor` rejects (with a synchronous error and no
result batch) any batch whose size is not exactly `num_agents`, and on an
exact-size batch returns the resolved batch rather than this error. -/
theorem batch_size_gate (tc : Trig) (cfg : CollisionMonitorConfig)
    (robots : List Robot) :
    (robots.length ≠ cfg.num_agents →
      trigger_collision_monitor tc cfg robots =
        Except.error "Not yet received all agent records") ∧
    (robots.length = cfg.num_agents →
      trigger_collision_monitor tc cfg robots =
        Except.ok (update_robot_state tc cfg robots)) := by
  unfold trigger_collision_monitor
  constructor <;> intro h <;> simp [h]

/-- C2: a batch with any conflict comes back with every agent paused and no
position changed; the resolution loop never runs (the core returns the
untouched batch with the deadlock flag still set). -/
theorem conflicts_force_full_pause (tc : Trig) (cfg : CollisionMonitorConfig)
    (robots : List Robot) (h : detect_collisions tc cfg robots ≠ []) :
    update_robot_state tc cfg robots = pause_all robots ∧
    update_robot_state_core tc cfg robots = (robots, true) ∧
    (∀ r ∈ update_robot_state tc cfg robots, r.state = MotionState.Pause.toString) ∧
    (update_robot_state tc cfg robots).map (fun r => (r.x, r.y)) =
      robots.map fun r => (r.x, r.y) := by
  have he : (detect_collisions tc cfg robots).isEmpty = false := by
    simpa [List.isEmpty_iff] using h
  have h1 : update_robot_state tc cfg robots = pause_all robots := by
    rw [update_robot_state_eq, he]
    simp
  refine ⟨h1, ?_, ?_, ?_⟩
  · rw [update_robot_state_core_eq, he]
    simp
  · rw [h1]
    intro r hr
    simp only [pause_all, List.mem_map] at hr
    obtain ⟨s, -, rfl⟩ := hr
    rfl
  · rw [h1]
    simp only [pause_all, List.map_map]
    rfl

/-- C3: whenever the deadlock flag is set when the resolution loop exits,
every agent of the output batch has state `Pause`. -/
theorem deadlock_flag_forces_pause (tc : Trig) (cfg : CollisionMonitorConfig)
    (robots : List Robot)
    (h : (update_robot_state_core tc cfg robots).2 = true) :
    ∀ r ∈ update_robot_state tc cfg robots, r.state = MotionState.Pause.toString := by
  intro r hr
  simp only [update_robot_state, h] at hr
  simp only [if_true, pause_all, List.mem_map] at hr
  obtain ⟨s, -, rfl⟩ := hr
  rfl

/-- C1 (amended): for a four-agent batch in which exactly one pair is in
geometric conflict, one call to `update_robot_state` advances no agent and
sets every agent of the batch — the two non-conflicting ones included — to
`Pause`; the conflicting pair thus receives the default Pause/Pause outcome
extended to the whole fleet. -/
theorem single_conflict_batch_pause (tc : Trig) (cfg : CollisionMonitorConfig)
    (robots : List Robot) (i j : Nat) (_hlen : robots.length = 4)
    (hdet : detect_collisions tc cfg robots = [(i, j)]) :
    update_robot_state tc cfg robots = pause_all robots ∧
    (update_robot_state tc cfg robots).map (fun r => (r.x, r.y)) =
      robots.map fun r => (r.x, r.y) := by
  have he : (detect_collisions tc cfg robots).isEmpty = false := by
    rw [hdet]
    rfl
  have h1 : update_robot_state tc cfg robots = pause_all robots := by
    rw [update_robot_state_eq, he]
    simp
  refine ⟨h1, ?_⟩
  rw [h1]
  simp only [pause_all, List.map_map]
  rfl

/-- C9: one resolution cycle preserves batch length and mutates only the
`x`, `y` and `state` fields: `theta`, `loaded`, `timestamp`, `path`,
`device_id` and `battery_level` of every agent are unchanged. -/
theorem update_robot_state_frame (tc : Trig) (cfg : CollisionMonitorConfig)
    (robots : List Robot) :
    (update_robot_state tc cfg robots).length = robots.length ∧
    ∀ i, i < robots.length →
      ((update_robot_state tc cfg robots).getD i default).theta =
          (robots.getD i default).theta ∧
      ((update_robot_state tc cfg robots).getD i default).loaded =
          (robots.getD i default).loaded ∧
      ((update_robot_state tc cfg robots).getD i default).timestamp =
          (robots.getD i default).timestamp ∧
      ((update_robot_state tc cfg robots).getD i default).path =
          (robots.getD i default).path ∧
      ((update_robot_state tc cfg robots).getD i default).device_id =
          (robots.getD i default).device_id ∧
      ((update_robot_state tc cfg robots).getD i default).battery_level =
          (robots.getD i default).battery_level := by
  rw [update_robot_state_eq]
  split_ifs with hc
  · refine ⟨by simp, fun i hi => ?_⟩
    rw [getD_map_of_lt _ _ _ hi]
    obtain ⟨h1, h2, h3, h4, h5, -, h7⟩ := update_motion_coordinates_frame
      (robots.getD i default)
    exact ⟨h1, h2, h3, h4, h5, h7⟩
  · refine ⟨by simp [pause_all], fun i hi => ?_⟩
    rw [pause_all_getD _ _ hi]
    exact ⟨rfl, rfl, rfl, rfl, rfl, rfl⟩

/-- C10: on a conflict-free batch, one cycle applies the waypoint-advance
rule to every agent (`Resume` agents advance, `update_motion_coordinates`
leaves paused agents as they are) and changes no state; if the result is
again conflict-free, a second cycle advances each agent one further step of
the same rule. -/
theorem empty_conflict_progress (tc : Trig) (cfg : CollisionMonitorConfig)
    (robots : List Robot) (h : detect_collisions tc cfg robots = []) :
    update_robot_state tc cfg robots = robots.map update_motion_coordinates ∧
    (update_robot_state tc cfg robots).map Robot.state = robots.map Robot.state ∧
    (detect_collisions tc cfg (update_robot_state tc cfg robots) = [] →
      update_robot_state tc cfg (update_robot_state tc cfg robots) =
        (robots.map update_motion_coordinates).map update_motion_coordinates) := by
  have h1 : update_robot_state tc cfg robots = robots.map update_motion_coordinates := by
    rw [update_robot_state_eq, h]
    simp
  refine ⟨h1, ?_, fun h2 => ?_⟩
  · rw [h1, List.map_map]
    exact List.map_congr_left fun r _ =>
      (update_motion_coordinates_frame r).2.2.2.2.2.1
  · rw [h1] at h2
    rw [h1, update_robot_state_eq, h2]
    simp

/-- C5: a `Resume` agent whose pose exactly matches a waypoint of its path
moves to the waypoint after the first such match when one exists (heading
untouched); with no exact match, or when the first match is the final
waypoint, the agent is returned unchanged. -/
theorem waypoint_advance_spec (r : Robot)
    (hres : r.state = MotionState.Resume.toString) :
    (∀ i, i < r.path.length → on_wp r i → (∀ k, k < i → ¬ on_wp r k) →
        i + 1 < r.path.length →
        update_motion_coordinates r =
          { r with x := (r.path.getD (i + 1) default).x,
                   y := (r.path.getD (i + 1) default).y }) ∧
    ((∀ k, k < r.path.length → ¬ on_wp r k) → update_motion_coordinates r = r) ∧
    (∀ i, i < r.path.length → on_wp r i → (∀ k, k < i → ¬ on_wp r k) →
        i + 1 = r.path.length → update_motion_coordinates r = r) := by
  refine ⟨?_, ?_, ?_⟩
  · intro i hi hwp hfirst hnext
    have hpos : position (fun point => point.x = r.x ∧ point.y = r.y) r.path = some i :=
      (position_eq_some_iff _ default r.path i).mpr ⟨hi, hwp, hfirst⟩
    have hget : r.path[i + 1]? = some (r.path.getD (i + 1) default) := by
      rw [List.getElem?_eq_getElem hnext, List.getD_eq_getElem _ _ hnext]
    unfold update_motion_coordinates
    rw [if_pos hres, hpos]
    dsimp only
    rw [hget]
  · intro hall
    have hpos : position (fun point => point.x = r.x ∧ point.y = r.y) r.path = none :=
      (position_eq_none_iff _ default r.path).mpr hall
    unfold update_motion_coordinates
    rw [if_pos hres, hpos]
  · intro i hi hwp hfirst hlast
    have hpos : position (fun point => point.x = r.x ∧ point.y = r.y) r.path = some i :=
      (position_eq_some_iff _ default r.path i).mpr ⟨hi, hwp, hfirst⟩
    have hget : r.path[i + 1]? = none := List.getElem?_eq_none (by omega)
    unfold update_motion_coordinates
    rw [if_pos hres, hpos]
    dsimp only
    rw [hget]

/-- The near pair conflicts: their `1 × 1` boxes at `(0,0)` and `(1/2,0)`
overlap. -/
theorem near_pair_conflict :
    detect_collisions trigZ cfg3 [near1, near2] = [(0, 1)] := by
  rw [detect_collisions_two]
  norm_num [will_collision_occur, collision_check_helper, rotate_bounding_box,
    trigZ, near1, near2, cfg3, mk_robot]
  decide

/-- The far pair does not conflict. -/
theorem far_pair_no_conflict :
    detect_collisions trigZ cfg3 [far1, far2] = [] := by
  rw [detect_collisions_two]
  norm_num [will_collision_occur, collision_check_helper, rotate_bounding_box,
    trigZ, far1, far2, cfg3, mk_robot]

/-- In the four-agent batch only the near pair (indices 0, 1) conflicts. -/
theorem batch4_detect :
    detect_collisions trigZ cfg4 batch4 = [(0, 1)] := by
  have hb : batch4 = [near1, near2, iso1, iso2] := rfl
  rw [hb, detect_collisions_four]
  norm_num [will_collision_occur, collision_check_helper, rotate_bounding_box,
    trigZ, near1, near2, iso1, iso2, cfg4, cfg3, mk_robot]
  decide

/-- C8: for the three diagonal agents at `(0,0)`, `(1,1)`, `(2,2)` with
`theta = 0` and a `1 × 1` box, the conflict list is exactly
`[(0,1), (1,2)]`; in particular `(0,2)` is absent. -/
theorem diagonal_scenario (tc : Trig) (hc : tc.cos 0 = 1) (hs : tc.sin 0 = 0) :
    detect_collisions tc cfg3 [diag1, diag2, diag3] = [(0, 1), (1, 2)] := by
  rw [detect_collisions_three]
  norm_num [will_collision_occur, collision_check_helper, rotate_bounding_box,
    diag1, diag2, diag3, cfg3, mk_robot, hc, hs]
  decide

/-- Witness for C8 at the computable zero-heading trig pair. -/
theorem diagonal_scenario_witness :
    trigZ.cos 0 = 1 ∧ trigZ.sin 0 = 0 ∧
    detect_collisions trigZ cfg3 [diag1, diag2, diag3] = [(0, 1), (1, 2)] :=
  ⟨rfl, rfl, diagonal_scenario trigZ rfl rfl⟩

/-- C1 (counterexample): in `batch4` exactly the pair `(0, 1)` conflicts and
agents 2, 3 conflict with nobody; agent 2 is a `Resume` agent sitting on
waypoint 0 of its path with next waypoint `(60, 60)`, yet after one call to
`update_robot_state` it has not advanced (still at `(50, 50)`) and is
`Pause` — not the claimed one-waypoint advance of the non-conflicting
agents. -/
theorem four_agent_counterexample :
    detect_collisions trigZ cfg4 batch4 = [(0, 1)] ∧
    (batch4.getD 2 default).state = MotionState.Resume.toString ∧
    (batch4.getD 2 default).x = 50 ∧
    (batch4.getD 2 default).y = 50 ∧
    (batch4.getD 2 default).path.getD 0 default = { x := 50, y := 50, theta := 0 } ∧
    (batch4.getD 2 default).path.getD 1 default = { x := 60, y := 60, theta := 0 } ∧
    ((update_robot_state trigZ cfg4 batch4).getD 2 default).x = 50 ∧
    ((update_robot_state trigZ cfg4 batch4).getD 2 default).y = 50 ∧
    ((update_robot_state trigZ cfg4 batch4).getD 2 default).state =
      MotionState.Pause.toString := by
  have hup : update_robot_state trigZ cfg4 batch4 = pause_all batch4 := by
    rw [update_robot_state_eq, batch4_detect]
    simp
  refine ⟨batch4_detect, rfl, rfl, rfl, rfl, rfl, ?_, ?_, ?_⟩ <;> rw [hup] <;> rfl

/-- Witness for the amended C1 at the concrete four-agent batch. -/
theorem single_conflict_batch_pause_witness :
    batch4.length = 4 ∧
    detect_collisions trigZ cfg4 batch4 = [(0, 1)] ∧
    update_robot_state trigZ cfg4 batch4 = pause_all batch4 :=
  ⟨rfl, batch4_detect,
    (single_conflict_batch_pause trigZ cfg4 batch4 0 1 rfl batch4_detect).1⟩

/-- Witness for C2 at the conflicting near pair. -/
theorem conflicts_force_full_pause_witness :
    detect_collisions trigZ cfg3 [near1, near2] ≠ [] ∧
    update_robot_state trigZ cfg3 [near1, near2] = pause_all [near1, near2] :=
  ⟨by rw [near_pair_conflict]; simp,
    (conflicts_force_full_pause trigZ cfg3 [near1, near2]
      (by rw [near_pair_conflict]; simp)).1⟩

/-- Witness for C3 at the conflicting near pair. -/
theorem deadlock_flag_forces_pause_witness :
    (update_robot_state_core trigZ cfg3 [near1, near2]).2 = true ∧
    ({ near1 with state := MotionState.Pause.toString } : Robot).state =
      MotionState.Pause.toString := by
  have hflag : (update_robot_state_core trigZ cfg3 [near1, near2]).2 = true := by
    rw [update_robot_state_core_eq]
    simp [near_pair_conflict]
  have hup : update_robot_state trigZ cfg3 [near1, near2] = pause_all [near1, near2] := by
    rw [update_robot_state_eq, near_pair_conflict]
    simp
  have hmem : ({ near1 with state := MotionState.Pause.toString } : Robot) ∈
      update_robot_state trigZ cfg3 [near1, near2] := by
    rw [hup]
    exact List.mem_cons_self _ _
  exact ⟨hflag, deadlock_flag_forces_pause trigZ cfg3 [near1, near2] hflag _ hmem⟩

/-- Witness for C4 with an empty batch against a required size of 3. -/
theorem batch_size_gate_witness :
    ([] : List Robot).length ≠ cfg3.num_agents ∧
    trigger_collision_monitor trigZ cfg3 [] =
      Except.error "Not yet received all agent records" :=
  ⟨by decide, (batch_size_gate trigZ cfg3 []).1 (by decide)⟩

/-- Witness for C5: the robot on waypoint 0 of its path advances to
waypoint 1. -/
theorem waypoint_advance_spec_witness :
    w5.state = MotionState.Resume.toString ∧
    update_motion_coordinates w5 =
      { w5 with x := (w5.path.getD 1 default).x, y := (w5.path.getD 1 default).y } :=
  ⟨rfl,
    (waypoint_advance_spec w5 rfl).1 0 (by decide) ⟨rfl, rfl⟩
      (fun k hk => absurd hk (Nat.not_lt_zero k)) (by decide)⟩

/-- Witness for C7 at two overlapping records with one `device_id`. -/
theorem no_self_conflict_witness :
    dup1.device_id = dup2.device_id ∧
    will_collision_occur trigZ cfg3 dup1 dup2 = false :=
  ⟨rfl, (no_self_conflict trigZ cfg3).1 dup1 dup2 rfl⟩

/-- Witness for C9 on a singleton batch. -/
theorem update_robot_state_frame_witness :
    0 < ([w5] : List Robot).length ∧
    ((update_robot_state trigZ cfg3 [w5]).getD 0 default).device_id =
      (([w5] : List Robot).getD 0 default).device_id :=
  ⟨by decide,
    ((update_robot_state_frame trigZ cfg3 [w5]).2 0 (by decide)).2.2.2.2.1⟩

/-- Witness for C10 on the conflict-free far pair. -/
theorem empty_conflict_progress_witness :
    detect_collisions trigZ cfg3 [far1, far2] = [] ∧
    update_robot_state trigZ cfg3 [far1, far2] =
      ([far1, far2] : List Robot).map update_motion_coordinates :=
  ⟨far_pair_no_conflict,
    (empty_conflict_progress trigZ cfg3 [far1, far2] far_pair_no_conflict).1⟩

end AvoidDeadlocks
